import Mathlib

/-!
Verification of the uHouse wireframe renderer (src/main.rs, src/vec.rs,
src/fps.rs) against its design specification.

The embedding models Rust `i16` values as `Int` together with an explicit
two's-complement wraparound `wrap16` applied wherever the Rust code performs
16-bit arithmetic (release-mode wrapping semantics, which the spec declares
to be the accepted numeric behaviour) or an `as i16` narrowing cast.
Arithmetic right shift `>>` on signed integers is floor division by a power
of two, and Rust's `/` on integers is truncating division (`Int.tdiv`).
-/

namespace UHouse

/-- Two's-complement wraparound to the signed 16-bit range, modelling both
release-mode `i16` arithmetic and `as i16` narrowing casts. -/
def wrap16 (n : Int) : Int := (n + 32768) % 65536 - 32768

/-- The value is representable as an `i16`. -/
def InRange16 (n : Int) : Prop := -32768 ≤ n ∧ n ≤ 32767

instance (n : Int) : Decidable (InRange16 n) := by
  unfold InRange16
  infer_instance

/-- Arithmetic shift right by `k` bits (Rust `>>` on a signed integer):
floor division by `2 ^ k`. -/
def sar (n : Int) (k : Nat) : Int := Int.fdiv n (2 ^ k)

/-- Rust `i16::abs` in release mode: ordinary absolute value except that
`i16::MIN` wraps back to itself. -/
def i16Abs (n : Int) : Int := wrap16 |n|

/-- 2D vector of fixed-point (`i16`) scalars, from `struct Vec2`. -/
structure Vec2 where
  x : Int
  y : Int
deriving DecidableEq, Repr

/-- 3D vector of fixed-point (`i16`) scalars, from `struct Vec3`. -/
structure Vec3 where
  x : Int
  y : Int
  z : Int
deriving DecidableEq, Repr

/-- `Vec2::rotate`: complex multiplication of `self` by `other` in 32-bit
intermediates, rescaled by an arithmetic right shift of 12 and narrowed back
to `i16`.  For `i16`-ranged inputs every 32-bit intermediate fits in `i32`
(the extreme magnitude is `32768 * 32768 + 32768 * 32767 < 2 ^ 31`), so the
widened products are modelled exactly; the final `as i16` cast is `wrap16`. -/
def Vec2.rotate (v1 v2 : Vec2) : Vec2 :=
  { x := wrap16 (sar (v1.x * v2.x - v1.y * v2.y) 12)
    y := wrap16 (sar (v1.x * v2.y + v1.y * v2.x) 12) }

/-- `Vec2::swap`: exchange the two components. -/
def Vec2.swap (v : Vec2) : Vec2 := { x := v.y, y := v.x }

/-- `Vec2::component_abs`: component-wise absolute value. -/
def Vec2.componentAbs (v : Vec2) : Vec2 := { x := i16Abs v.x, y := i16Abs v.y }

/-- `impl Add for Vec2`: component-wise `i16` addition (wrapping). -/
def Vec2.add (a b : Vec2) : Vec2 := { x := wrap16 (a.x + b.x), y := wrap16 (a.y + b.y) }

/-- `impl Sub for Vec2`: component-wise `i16` subtraction (wrapping). -/
def Vec2.sub (a b : Vec2) : Vec2 := { x := wrap16 (a.x - b.x), y := wrap16 (a.y - b.y) }

/-- Both components are `i16`-ranged. -/
def Vec2.InRange (v : Vec2) : Prop := InRange16 v.x ∧ InRange16 v.y

instance (v : Vec2) : Decidable v.InRange := by
  unfold Vec2.InRange
  infer_instance

/-- `MESH_DEPTH`: how far into the screen to render the mesh. -/
def MESH_DEPTH : Int := 0x2a00

/-- `ROT0`: rotation vector of 3 degrees per frame, `round(4096*exp(3j*pi/180))`. -/
def ROT0 : Vec2 := { x := 0xffa, y := 0xd6 }

/-- `LOC0`: rotation vector of 1 degree per frame, `round(4096*exp(1j*pi/180))`. -/
def LOC0 : Vec2 := { x := 0xfff, y := 0x47 }

/-- The canonical unit value `vec2!(0x1000, 0)` used to initialise and reset
the rotation and location state vectors. -/
def unitVec : Vec2 := { x := 0x1000, y := 0 }

def SCREEN_WIDTH : Int := 128

def SCREEN_HEIGHT : Int := 64

def SCREEN_CENTER : Vec2 := { x := 64, y := 32 }

/-- `MESH_VERTS`: the fixed 57-vertex table. -/
def meshVerts : List Vec3 := [
  -- Cube
  ⟨ 0x800,  0x800,  0x800⟩,
  ⟨-0x800,  0x800,  0x800⟩,
  ⟨-0x800, -0x800,  0x800⟩,
  ⟨ 0x800, -0x800,  0x800⟩,
  ⟨ 0x800,  0x800, -0x800⟩,
  ⟨-0x800,  0x800, -0x800⟩,
  ⟨-0x800, -0x800, -0x800⟩,
  ⟨ 0x800, -0x800, -0x800⟩,
  -- Roof
  ⟨ 0x000, -0x1400, 0x000⟩,
  -- Door
  ⟨-0x100,  0x800, -0x800⟩,
  ⟨-0x600,  0x800, -0x800⟩,
  ⟨-0x600,  0x200, -0x800⟩,
  ⟨-0x100,  0x200, -0x800⟩,
  -- Front window
  ⟨ 0x500, -0x200, -0x800⟩,
  ⟨ 0x200, -0x200, -0x800⟩,
  ⟨ 0x200, -0x500, -0x800⟩,
  ⟨ 0x500, -0x500, -0x800⟩,
  -- Left window
  ⟨-0x800,  0x500,  0x200⟩,
  ⟨-0x800,  0x500,  0x500⟩,
  ⟨-0x800,  0x200,  0x500⟩,
  ⟨-0x800,  0x200,  0x200⟩,
  -- Car
  ⟨-0x800,  0x800,  0xb00⟩,
  ⟨ 0x800,  0x800,  0xb00⟩,
  ⟨ 0x800,  0x500,  0xb00⟩,
  ⟨ 0x400,  0x500,  0xb00⟩,
  ⟨ 0x200,  0x200,  0xb00⟩,
  ⟨-0x600,  0x200,  0xb00⟩,
  ⟨-0x800,  0x500,  0xb00⟩,
  ⟨-0x800,  0x800,  0x1200⟩,
  ⟨ 0x800,  0x800,  0x1200⟩,
  ⟨ 0x800,  0x500,  0x1200⟩,
  ⟨ 0x400,  0x500,  0x1200⟩,
  ⟨ 0x200,  0x200,  0x1200⟩,
  ⟨-0x600,  0x200,  0x1200⟩,
  ⟨-0x800,  0x500,  0x1200⟩,
  -- Tree
  ⟨ 0x1000,  0x800,   0x000⟩,
  ⟨ 0x1000, -0x1400,  0x000⟩,
  ⟨ 0x1000,  0x200,   0x000⟩, -- Branch base
  ⟨ 0x1400, -0x1000,  0x000⟩,
  ⟨ 0xc00,  -0x1000,  0x000⟩,
  ⟨ 0x1000, -0x1000,  0x400⟩,
  ⟨ 0x1000, -0x1000, -0x400⟩,
  -- Fence
  ⟨-0x800,   0x800,   0x000⟩,
  ⟨-0x1400,  0x800,   0x000⟩,
  ⟨-0x1400,  0x200,   0x000⟩,
  ⟨-0x1200,  0x000,   0x000⟩,
  ⟨-0x1000,  0x200,   0x000⟩,
  ⟨-0xe00,   0x000,   0x000⟩,
  ⟨-0xc00,   0x200,   0x000⟩,
  ⟨-0xa00,   0x000,   0x000⟩,
  ⟨-0x800,   0x200,   0x000⟩,
  ⟨-0x1000,  0x800,   0x000⟩,
  ⟨-0xc00,   0x800,   0x000⟩,
  -- Welcome mat
  ⟨-0x100,  0x800, -0x900⟩,
  ⟨-0x600,  0x800, -0x900⟩,
  ⟨-0x600,  0x800, -0xc00⟩,
  ⟨-0x100,  0x800, -0xc00⟩]

/-- `MESH_INDICES`: line segments as (`u8`) index pairs into `meshVerts`. -/
def meshIndices : List (Nat × Nat) := [
  (0, 1), (1, 2), (2, 3), (3, 0),
  (4, 5), (5, 6), (6, 7), (7, 4),
  (0, 4), (1, 5), (2, 6), (3, 7),
  (2, 8), (3, 8), (6, 8), (7, 8),             -- Roof
  (10, 11), (11, 12), (12, 9),                -- Door
  (13, 14), (14, 15), (15, 16), (16, 13),     -- Front window
  (17, 18), (18, 19), (19, 20), (20, 17),     -- Left window
  (21, 22), (22, 23), (23, 24), (24, 25), (25, 26), (26, 27), (27, 21),   -- Car inner side
  (28, 29), (29, 30), (30, 31), (31, 32), (32, 33), (33, 34), (34, 28),   -- Car outer side
  (21, 28), (22, 29), (23, 30), (24, 31), (25, 32), (26, 33), (27, 34),   -- Car body
  (35, 36), (37, 38), (37, 39), (37, 40), (37, 41),                       -- Tree
  (42, 43), (43, 44), (44, 45), (45, 46), (46, 47), (47, 48), (48, 49),
  (49, 50), (50, 42), (46, 51), (48, 52),                                 -- Fence
  (53, 54), (54, 55), (55, 56), (56, 53)]     -- Welcome mat

/-- `point_accept`: the per-point visibility test, rejecting any point whose
x falls outside `[0, SCREEN_WIDTH)` or whose y falls outside
`[0, SCREEN_HEIGHT)`. -/
def pointAccept (v : Vec2) : Bool :=
  if v.x < 0 then false
  else if SCREEN_WIDTH ≤ v.x then false
  else if v.y < 0 then false
  else if SCREEN_HEIGHT ≤ v.y then false
  else true

/-- The `as u32` cast applied to each coordinate handed to `set_pixel`. -/
def toU32 (n : Int) : Nat := (n % 4294967296).toNat

/-- One pixel-emission step of `draw_line`'s loop body: undo the steep-case
axis swap for the visibility test and emit the pixel only when accepted;
a rejected point is silently skipped. -/
def emitPixel (shouldSwap : Bool) (v0 : Vec2) : List (Nat × Nat) :=
  if shouldSwap then
    if pointAccept v0.swap then [(toU32 v0.y, toU32 v0.x)] else []
  else
    if pointAccept v0 then [(toU32 v0.x, toU32 v0.y)] else []

/-- The error-accumulator update of one `draw_line` loop iteration:
`half_diff += dy; if half_diff > 0 { half_diff -= dx; }`. -/
def stepHd (dx dy hd : Int) : Int :=
  if 0 < wrap16 (hd + dy) then wrap16 (wrap16 (hd + dy) - dx) else wrap16 (hd + dy)

/-- The y-coordinate update of one `draw_line` loop iteration: advance y by
`y_step` exactly when the updated accumulator turned positive. -/
def stepY (dy yStep : Int) (v0 : Vec2) (hd : Int) : Int :=
  if 0 < wrap16 (hd + dy) then wrap16 (v0.y + yStep) else v0.y

/-- The `while v0.x <= v1.x` stepping loop of `draw_line`, with explicit fuel.
Returns the emitted pixels, the number of iterations executed, and whether
the loop condition became false (`true` = the Rust loop returned within
`fuel` iterations; `false` = it would still be running, which models
divergence when the fuel covers the full coordinate range). -/
def lineLoop (shouldSwap : Bool) (dx dy yStep : Int) :
    Nat → Vec2 → Int → Int → List (Nat × Nat) × Nat × Bool
  | 0, v0, v1x, _ => ([], 0, decide (v1x < v0.x))
  | fuel + 1, v0, v1x, halfDiff =>
    if v0.x ≤ v1x then
      let r := lineLoop shouldSwap dx dy yStep fuel
        ⟨wrap16 (v0.x + 1), stepY dy yStep v0 halfDiff⟩ v1x (stepHd dx dy halfDiff)
      (emitPixel shouldSwap v0 ++ r.1, r.2.1 + 1, r.2.2)
    else ([], 0, true)

/-- The endpoint canonicalisation at the head of `draw_line`: swap x and y on
both endpoints when the line is steep (`|Δy| > |Δx|`), then swap the
endpoints so that the first has the smaller x.  Returns
(steep flag, first endpoint, second endpoint). -/
def canonicalize (v0 v1 : Vec2) : Bool × Vec2 × Vec2 :=
  let d := (v1.sub v0).componentAbs
  let shouldSwap := d.x < d.y
  let w0 := if shouldSwap then v0.swap else v0
  let w1 := if shouldSwap then v1.swap else v1
  if w1.x < w0.x then (shouldSwap, w1, w0) else (shouldSwap, w0, w1)

/-- `draw_line`: Bresenham's line algorithm.  The fuel
`(v1.x - v0.x).toNat + 1` is exactly the number of iterations the Rust
`while` loop performs whenever it terminates (the canonical second endpoint
has `x < 32767`); when the loop would wrap `v0.x` past `i16::MAX` and keep
running, the fuel runs out and the completion flag is `false`. -/
def drawLine (a b : Vec2) : List (Nat × Nat) × Nat × Bool :=
  let c := canonicalize a b
  let v0 := c.2.1
  let v1 := c.2.2
  let dx := wrap16 (v1.x - v0.x)
  let dy := i16Abs (wrap16 (v1.y - v0.y))
  let yStep : Int := if v0.y < v1.y then 1 else -1
  let halfDiff := wrap16 (-(sar dx 1))
  lineLoop c.1 dx dy yStep ((v1.x - v0.x).toNat + 1) v0 v1.x halfDiff

/-- The depth divisor `z_prime = (z + MESH_DEPTH) >> 6` computed in the
transform pipeline, where `z` is the y-component of
`vec2!(v.x, v.z).rotate(rotation) + location.swap()`. -/
def depthDivisor (rotation location : Vec2) (v : Vec3) : Int :=
  sar (wrap16 (((Vec2.rotate ⟨v.x, v.z⟩ rotation).add location.swap).y + MESH_DEPTH)) 6

/-- One transform-pipeline step for a single mesh vertex, from the body of
the per-vertex loop in `main`. -/
def transformVertex (rotation location : Vec2) (v : Vec3) : Vec2 :=
  let moved := (Vec2.rotate ⟨v.x, v.z⟩ rotation).add location.swap
  let y := wrap16 (v.y + sar location.x 2)
  let zPrime := depthDivisor rotation location v
  (Vec2.mk (Int.tdiv moved.x zPrime) (Int.tdiv y zPrime)).add SCREEN_CENTER

/-- Modelled from the specification sentence of claim C2, word for word:
rotate `(v.x, v.z)` by the rotation state and add the axis-swapped location
state to obtain `(x, z)`; set `y` to `v.y` plus the location state's
x-component arithmetically shifted right by 2; set `z' = (z + 0x2a00) >> 6`;
output `(x / z', y / z')` plus the screen-center offset `(64, 32)`. -/
def transformVertexSpec (rotation location : Vec2) (v : Vec3) : Vec2 :=
  let xz := (Vec2.rotate ⟨v.x, v.z⟩ rotation).add location.swap
  let x := xz.x
  let z := xz.y
  let y := wrap16 (v.y + sar location.x 2)
  let zPrime := sar (wrap16 (z + 0x2a00)) 6
  Vec2.add ⟨Int.tdiv x zPrime, Int.tdiv y zPrime⟩ ⟨64, 32⟩

/-- Advance the rotation state by one frame. -/
def rotStep (v : Vec2) : Vec2 := v.rotate ROT0

/-- Advance the location state by one frame. -/
def locStep (v : Vec2) : Vec2 := v.rotate LOC0

/-- The rotation state after `n` un-reset frames. -/
def rotIter (n : Nat) : Vec2 := rotStep^[n] unitVec

/-- The location state after `n` un-reset frames. -/
def locIter (n : Nat) : Vec2 := locStep^[n] unitVec

/-- The per-iteration mutable state of the main loop. -/
structure LoopState where
  rotation : Vec2
  location : Vec2
  rotationCounter : Nat
  locationCounter : Nat
deriving DecidableEq, Repr

/-- One main-loop iteration's state update (lines 380-394 of main.rs):
rotate both state vectors by their per-frame deltas, increment both `u16`
revolution counters, and reset each counter together with its state vector
when the counter reaches its period (120 for rotation, 360 for location). -/
def loopStep (s : LoopState) : LoopState :=
  let rc := (s.rotationCounter + 1) % 65536
  let lc := (s.locationCounter + 1) % 65536
  { rotation := if 120 ≤ rc then unitVec else s.rotation.rotate ROT0
    location := if 360 ≤ lc then unitVec else s.location.rotate LOC0
    rotationCounter := if 120 ≤ rc then 0 else rc
    locationCounter := if 360 ≤ lc then 0 else lc }

/-- The state before the first loop iteration. -/
def initState : LoopState := ⟨unitVec, unitVec, 0, 0⟩

/-- The main-loop state at the end of iteration `n` (the values the
transform pipeline reads during iteration `n`, for `n ≥ 1`). -/
def loopState : Nat → LoopState
  | 0 => initState
  | n + 1 => loopStep (loopState n)

/-- Check a Boolean predicate on `v, f v, ..., f^[n] v`. -/
def allIter (p : Vec2 → Bool) (f : Vec2 → Vec2) : Nat → Vec2 → Bool
  | 0, v => p v
  | n + 1, v => p v && allIter p f n (f v)

/-- `FpsCounter::update`: increment the private `u16` frame count, then, if
the frame-interval flag is observed raised, emit the current count to the
serial sink (one decimal line), reset the count to zero and lower the flag.
The flag argument is the value observed by this call; outputs are the
emitted count values (`uwriteln!` renders them as newline-terminated decimal
lines, which is external serial formatting). -/
def fpsUpdate (count : Nat) (flag : Bool) : Nat × List Nat :=
  let c2 := (count + 1) % 65536
  if flag then (0, [c2]) else (c2, [])

/-- Run `FpsCounter::update` over a sequence of observed flag values,
returning the final count and the emitted values in order. -/
def runUpdates : Nat → List Bool → Nat × List Nat
  | c, [] => (c, [])
  | c, f :: fs =>
    let r := fpsUpdate c f
    let rest := runUpdates r.1 fs
    (rest.1, r.2 ++ rest.2)

/-- Bound check used to settle the depth-divisor claim: for every mesh
vertex, the rotated z-value under rotation state `r` stays within
`[-5120, 5120]`. -/
def rotZBoundOK (r : Vec2) : Bool :=
  meshVerts.all fun v =>
    decide (-5120 ≤ (Vec2.rotate ⟨v.x, v.z⟩ r).y ∧ (Vec2.rotate ⟨v.x, v.z⟩ r).y ≤ 5120)

/-- Bound check used to settle the depth-divisor claim: the location
state's x-component stays within `[-4096, 4096]`. -/
def locBoundOK (l : Vec2) : Bool :=
  decide (-4096 ≤ l.x ∧ l.x ≤ 4096)

/-! ## Helper lemmas -/

theorem wrap16_eq_self {n : Int} (h1 : -32768 ≤ n) (h2 : n ≤ 32767) : wrap16 n = n := by
  unfold wrap16
  omega

theorem wrap16_range (n : Int) : -32768 ≤ wrap16 n ∧ wrap16 n ≤ 32767 := by
  unfold wrap16
  omega

theorem sar_eq_ediv (n : Int) (k : Nat) : sar n k = n / 2 ^ k :=
  Int.fdiv_eq_ediv n (by positivity)

/-! ## Claim theorems -/

/-- Claim C2: one transform-pipeline step rotates `(v.x, v.z)` by the
rotation state, adds the axis-swapped location state to obtain `(x, z)`,
sets `y = v.y + (location.x >> 2)`, sets `z' = (z + 0x2a00) >> 6` (the depth
offset is applied to the rotated z-value before the 6-bit shift), and
outputs `(x / z', y / z')` plus the screen-center offset `(64, 32)`:
the source pipeline coincides with the specification formula. -/
theorem transform_pipeline_step (rotation location : Vec2) (v : Vec3) :
    transformVertex rotation location v = transformVertexSpec rotation location v := rfl

/-- Claim C6: `draw_line` on the horizontal segment (0,0)-(10,0), the
vertical segment (0,0)-(0,10) and the 45-degree diagonal (0,0)-(10,10)
emits exactly the expected eleven pixels each, in order, with no duplicate
and no gap. -/
theorem drawLine_axis_aligned_and_diagonal :
    (drawLine ⟨0, 0⟩ ⟨10, 0⟩).1 =
      [(0, 0), (1, 0), (2, 0), (3, 0), (4, 0), (5, 0),
       (6, 0), (7, 0), (8, 0), (9, 0), (10, 0)] ∧
    (drawLine ⟨0, 0⟩ ⟨0, 10⟩).1 =
      [(0, 0), (0, 1), (0, 2), (0, 3), (0, 4), (0, 5),
       (0, 6), (0, 7), (0, 8), (0, 9), (0, 10)] ∧
    (drawLine ⟨0, 0⟩ ⟨10, 10⟩).1 =
      [(0, 0), (1, 1), (2, 2), (3, 3), (4, 4), (5, 5),
       (6, 6), (7, 7), (8, 8), (9, 9), (10, 10)] := by
  decide

/-- Claim C7: the mesh tables have exactly 57 vertices and 68 edges, and
every edge is a pair of indices each strictly below the vertex count 57, so
the unchecked indexing into the 57-entry screen-space vertex buffer is
always in bounds. -/
theorem mesh_indices_in_bounds :
    meshVerts.length = 57 ∧ meshIndices.length = 68 ∧
      ∀ p ∈ meshIndices, p.1 < 57 ∧ p.2 < 57 := by
  decide

/-- Witness for C7 at the concrete edge `(0, 1)`. -/
theorem mesh_indices_in_bounds_witness :
    (0, 1) ∈ meshIndices ∧ (0 < 57 ∧ 1 < 57) :=
  ⟨by decide, mesh_indices_in_bounds.2.2 (0, 1) (by decide)⟩

/-- Claim C9: component-wise `Vec2` addition and subtraction are total and
follow native 16-bit two's-complement wraparound semantics: each result
component is congruent modulo 2^16 to the exact component sum or
difference, and lies in the `i16` range. -/
theorem vec2_add_sub_wraparound (a b : Vec2) :
    (a.add b).x % 65536 = (a.x + b.x) % 65536 ∧ InRange16 (a.add b).x ∧
    (a.add b).y % 65536 = (a.y + b.y) % 65536 ∧ InRange16 (a.add b).y ∧
    (a.sub b).x % 65536 = (a.x - b.x) % 65536 ∧ InRange16 (a.sub b).x ∧
    (a.sub b).y % 65536 = (a.y - b.y) % 65536 ∧ InRange16 (a.sub b).y := by
  simp only [Vec2.add, Vec2.sub, wrap16, InRange16]
  omega

theorem pointAccept_iff (v : Vec2) :
    pointAccept v = true ↔
      0 ≤ v.x ∧ v.x < SCREEN_WIDTH ∧ 0 ≤ v.y ∧ v.y < SCREEN_HEIGHT := by
  unfold pointAccept SCREEN_WIDTH SCREEN_HEIGHT
  split_ifs <;> simp <;> omega

theorem toU32_lt {n c : Int} (h0 : 0 ≤ n) (hc : n < c) (hb : c ≤ 4294967296) :
    (toU32 n : Int) < c := by
  unfold toU32
  omega

theorem emitPixel_bounds (ss : Bool) (v0 : Vec2) (p : Nat × Nat)
    (hp : p ∈ emitPixel ss v0) : p.1 < 128 ∧ p.2 < 64 := by
  unfold emitPixel at hp
  have hx : ∀ m : Int, 0 ≤ m → m < 128 → toU32 m < 128 := by
    intro m h1 h2
    have := toU32_lt h1 h2 (by norm_num)
    omega
  have hy : ∀ m : Int, 0 ≤ m → m < 64 → toU32 m < 64 := by
    intro m h1 h2
    have := toU32_lt h1 h2 (by norm_num)
    omega
  cases ss with
  | true =>
    by_cases ha : pointAccept v0.swap = true
    · simp only [emitPixel, ha, if_true, List.mem_singleton] at hp
      obtain ⟨b1, b2, b3, b4⟩ := (pointAccept_iff v0.swap).mp ha
      simp only [Vec2.swap, SCREEN_WIDTH, SCREEN_HEIGHT] at b1 b2 b3 b4
      subst hp
      exact ⟨hx _ b1 b2, hy _ b3 b4⟩
    · simp [emitPixel, ha] at hp
  | false =>
    by_cases ha : pointAccept v0 = true
    · simp only [emitPixel, ha, if_true, if_false, Bool.false_eq_true,
        List.mem_singleton] at hp
      obtain ⟨b1, b2, b3, b4⟩ := (pointAccept_iff v0).mp ha
      simp only [SCREEN_WIDTH, SCREEN_HEIGHT] at b2 b4
      subst hp
      exact ⟨hx _ b1 b2, hy _ b3 b4⟩
    · simp [emitPixel, ha] at hp

theorem lineLoop_pixel_bounds (ss : Bool) (dx dy ys : Int) :
    ∀ (fuel : Nat) (v0 : Vec2) (v1x hd : Int) (p : Nat × Nat),
      p ∈ (lineLoop ss dx dy ys fuel v0 v1x hd).1 → p.1 < 128 ∧ p.2 < 64 := by
  intro fuel
  induction fuel with
  | zero =>
    intro v0 v1x hd p hp
    simp [lineLoop] at hp
  | succ n ih =>
    intro v0 v1x hd p hp
    unfold lineLoop at hp
    by_cases hc : v0.x ≤ v1x
    · rw [if_pos hc] at hp
      simp only [List.mem_append] at hp
      cases hp with
      | inl h => exact emitPixel_bounds ss v0 p h
      | inr h => exact ih _ _ _ _ h
    · rw [if_neg hc] at hp
      simp at hp

/-- Claim C3: every pixel `draw_line` hands to the pixel surface satisfies
`0 ≤ x < 128` and `0 ≤ y < 64` (the coordinates are natural numbers after
the `as u32` cast, so the lower bounds are inherent); the visibility test
checks x against the width bound and y against the height bound
independently, and a failing point is silently skipped, so only the
in-bounds subset of the line's pixels is emitted. -/
theorem rasterizer_pixels_in_bounds :
    (∀ v : Vec2, pointAccept v = true ↔
        0 ≤ v.x ∧ v.x < SCREEN_WIDTH ∧ 0 ≤ v.y ∧ v.y < SCREEN_HEIGHT) ∧
    ∀ (v0 v1 : Vec2) (p : Nat × Nat),
      p ∈ (drawLine v0 v1).1 → p.1 < 128 ∧ p.2 < 64 := by
  refine ⟨pointAccept_iff, ?_⟩
  intro v0 v1 p hp
  unfold drawLine at hp
  exact lineLoop_pixel_bounds _ _ _ _ _ _ _ _ _ hp

/-- Witness for C3: the segment (0,0)-(3,0) emits the pixel (0,0), which is
within bounds. -/
theorem rasterizer_pixels_in_bounds_witness :
    (0, 0) ∈ (drawLine ⟨0, 0⟩ ⟨3, 0⟩).1 ∧ (0 < 128 ∧ 0 < 64) :=
  ⟨by decide, rasterizer_pixels_in_bounds.2 ⟨0, 0⟩ ⟨3, 0⟩ (0, 0) (by decide)⟩

theorem canonicalize_le (v0 v1 : Vec2) :
    ((canonicalize v0 v1).2.1).x ≤ ((canonicalize v0 v1).2.2).x := by
  simp only [canonicalize]
  split_ifs <;> first
    | omega
    | (simp only [Vec2.swap] at *; omega)

theorem canonicalize_inRange {v0 v1 : Vec2} (h0 : v0.InRange) (h1 : v1.InRange) :
    ((canonicalize v0 v1).2.1).InRange ∧ ((canonicalize v0 v1).2.2).InRange := by
  obtain ⟨h0x, h0y⟩ := h0
  obtain ⟨h1x, h1y⟩ := h1
  simp only [canonicalize]
  split_ifs <;> simp only [Vec2.InRange, Vec2.swap] <;> tauto

theorem lineLoop_run (ss : Bool) (dx dy ys : Int) :
    ∀ (fuel : Nat) (v0 : Vec2) (v1x hd : Int),
      -32768 ≤ v0.x → v0.x ≤ v1x → v1x ≤ 32766 →
      fuel = (v1x - v0.x).toNat + 1 →
      (lineLoop ss dx dy ys fuel v0 v1x hd).2.2 = true ∧
      (lineLoop ss dx dy ys fuel v0 v1x hd).2.1 = fuel := by
  intro fuel
  induction fuel with
  | zero =>
    intro v0 v1x hd h1 h2 h3 hf
    omega
  | succ n ih =>
    intro v0 v1x hd h1 h2 h3 hf
    have hw : wrap16 (v0.x + 1) = v0.x + 1 := wrap16_eq_self (by omega) (by omega)
    have hwx : (⟨wrap16 (v0.x + 1), stepY dy ys v0 hd⟩ : Vec2).x = v0.x + 1 := by
      show wrap16 (v0.x + 1) = v0.x + 1
      exact hw
    unfold lineLoop
    rw [if_pos h2]
    by_cases hlast : v0.x = v1x
    · have hn : n = 0 := by omega
      subst hn
      refine ⟨decide_eq_true ?_, rfl⟩
      rw [hwx]
      omega
    · obtain ⟨ha, hb⟩ := ih ⟨wrap16 (v0.x + 1), stepY dy ys v0 hd⟩ v1x (stepHd dx dy hd)
        (by rw [hwx]; omega) (by rw [hwx]; omega) h3 (by rw [hwx]; omega)
      exact ⟨ha, congrArg (fun t => t + 1) hb⟩

/-- Claim C10: for `i16`-ranged endpoints whose canonical second endpoint
(after the steep-case axis swap and the smaller-x-first reordering) has
`x < 32767`, the stepping loop of `draw_line` runs exactly
`v1.x - v0.x + 1` iterations over the canonical endpoints and then returns
(the completion flag records that the loop condition became false within
the allotted fuel, i.e. the Rust `while` loop terminated). -/
theorem drawLine_terminates (v0 v1 : Vec2) (h0 : v0.InRange) (h1 : v1.InRange)
    (hlt : ((canonicalize v0 v1).2.2).x < 32767) :
    (drawLine v0 v1).2.2 = true ∧
    (drawLine v0 v1).2.1 =
      (((canonicalize v0 v1).2.2).x - ((canonicalize v0 v1).2.1).x).toNat + 1 := by
  obtain ⟨hc0, hc1⟩ := canonicalize_inRange h0 h1
  have hle := canonicalize_le v0 v1
  unfold drawLine
  exact lineLoop_run _ _ _ _ _ _ _ _ hc0.1.1 hle (by omega) rfl

/-- Witness for C10 on the segment (0,0)-(3,0). -/
theorem drawLine_terminates_witness :
    (drawLine ⟨0, 0⟩ ⟨3, 0⟩).2.2 = true ∧
    (drawLine ⟨0, 0⟩ ⟨3, 0⟩).2.1 =
      (((canonicalize ⟨0, 0⟩ ⟨3, 0⟩).2.2).x - ((canonicalize ⟨0, 0⟩ ⟨3, 0⟩).2.1).x).toNat + 1 :=
  drawLine_terminates ⟨0, 0⟩ ⟨3, 0⟩ (by decide) (by decide) (by decide)

/-- Claim C8: `rotate` is consistent with complex multiplication at the unit
input: for every `i16`-ranged vector `r`, `rotate(unit_x, r) = r` exactly
(the rounding error is zero), where `unit_x = (4096, 0)`. -/
theorem rotate_unit_consistency (r : Vec2) (hx : InRange16 r.x) (hy : InRange16 r.y) :
    Vec2.rotate unitVec r = r := by
  obtain ⟨hx1, hx2⟩ := hx
  obtain ⟨hy1, hy2⟩ := hy
  cases r with
  | mk x y =>
    simp only [Vec2.rotate, unitVec, sar, Vec2.mk.injEq]
    rw [show ((2 : Int) ^ 12) = 4096 by norm_num]
    constructor
    · rw [show (0x1000 : Int) * x - 0 * y = 4096 * x by ring,
        Int.mul_fdiv_cancel_left x (by norm_num)]
      exact wrap16_eq_self hx1 hx2
    · rw [show (0x1000 : Int) * y + 0 * x = 4096 * y by ring,
        Int.mul_fdiv_cancel_left y (by norm_num)]
      exact wrap16_eq_self hy1 hy2

/-- Witness for C8 at the concrete rotation delta `ROT0`. -/
theorem rotate_unit_consistency_witness : Vec2.rotate unitVec ROT0 = ROT0 :=
  rotate_unit_consistency ROT0 (by decide) (by decide)

theorem rotIter_succ (n : Nat) : rotIter (n + 1) = (rotIter n).rotate ROT0 := by
  simp [rotIter, Function.iterate_succ_apply', rotStep]

theorem locIter_succ (n : Nat) : locIter (n + 1) = (locIter n).rotate LOC0 := by
  simp [locIter, Function.iterate_succ_apply', locStep]

/-- The main-loop state after `n` iterations: both counters follow
`n mod period`, and each state vector is its period-indexed iterate. -/
theorem loopState_spec (n : Nat) :
    loopState n = ⟨rotIter (n % 120), locIter (n % 360), n % 120, n % 360⟩ := by
  induction n with
  | zero => rfl
  | succ n ih =>
    have hr : n % 120 < 120 := Nat.mod_lt _ (by norm_num)
    have hl : n % 360 < 360 := Nat.mod_lt _ (by norm_num)
    show loopStep (loopState n) = _
    rw [ih]
    simp only [loopStep, LoopState.mk.injEq]
    refine ⟨?_, ?_, ?_, ?_⟩
    · by_cases h : 120 ≤ (n % 120 + 1) % 65536
      · rw [if_pos h]
        have h0 : (n + 1) % 120 = 0 := by omega
        rw [h0]
        rfl
      · rw [if_neg h]
        have h0 : (n + 1) % 120 = n % 120 + 1 := by omega
        rw [h0, rotIter_succ]
    · by_cases h : 360 ≤ (n % 360 + 1) % 65536
      · rw [if_pos h]
        have h0 : (n + 1) % 360 = 0 := by omega
        rw [h0]
        rfl
      · rw [if_neg h]
        have h0 : (n + 1) % 360 = n % 360 + 1 := by omega
        rw [h0, locIter_succ]
    · by_cases h : 120 ≤ (n % 120 + 1) % 65536
      · rw [if_pos h]
        omega
      · rw [if_neg h]
        omega
    · by_cases h : 360 ≤ (n % 360 + 1) % 65536
      · rw [if_pos h]
        omega
      · rw [if_neg h]
        omega

/-- Claim C4: at the end of every main-loop iteration the revolution
counters satisfy `rotation_counter < 120` and `location_counter < 360`
(each counter is incremented every iteration and reset to 0 on reaching its
period, together with its state vector), and after every 120th iteration
the rotation state equals its canonical unit value `(0x1000, 0)` exactly,
so drift never exceeds one revolution's worth of error. -/
theorem loop_reset_invariant (n : Nat) :
    (loopState n).rotationCounter < 120 ∧ (loopState n).locationCounter < 360 ∧
      (n % 120 = 0 → (loopState n).rotation = unitVec) := by
  rw [loopState_spec]
  refine ⟨Nat.mod_lt _ (by norm_num), Nat.mod_lt _ (by norm_num), fun h => ?_⟩
  show rotIter (n % 120) = unitVec
  rw [h]
  rfl

/-- Witness for C4 at the 120th iteration. -/
theorem loop_reset_invariant_witness :
    (loopState 120).rotationCounter < 120 ∧ (loopState 120).locationCounter < 360 ∧
      (loopState 120).rotation = unitVec :=
  ⟨(loop_reset_invariant 120).1, (loop_reset_invariant 120).2.1,
    (loop_reset_invariant 120).2.2 (by norm_num)⟩

theorem allIter_spec (p : Vec2 → Bool) (f : Vec2 → Vec2) :
    ∀ (n : Nat) (v : Vec2), allIter p f n v = true →
      ∀ m, m ≤ n → p (f^[m] v) = true := by
  intro n
  induction n with
  | zero =>
    intro v h m hm
    have hm0 : m = 0 := Nat.le_zero.mp hm
    subst hm0
    simpa using h
  | succ n ih =>
    intro v h m hm
    rw [allIter, Bool.and_eq_true] at h
    cases m with
    | zero => simpa using h.1
    | succ m =>
      rw [Function.iterate_succ_apply]
      exact ih (f v) h.2 m (by omega)

set_option maxRecDepth 100000 in
/-- Finite check: all 120 reachable rotation states keep every mesh
vertex's rotated z-value within `[-5120, 5120]`. -/
theorem rotZBound_check : allIter rotZBoundOK rotStep 119 unitVec = true := by decide

set_option maxRecDepth 100000 in
/-- Finite check: all 360 reachable location states keep the x-component
within `[-4096, 4096]`. -/
theorem locBound_check : allIter locBoundOK locStep 359 unitVec = true := by decide

theorem rotZ_bound (m : Nat) (hm : m ≤ 119) (v : Vec3) (hv : v ∈ meshVerts) :
    -5120 ≤ (Vec2.rotate ⟨v.x, v.z⟩ (rotIter m)).y ∧
      (Vec2.rotate ⟨v.x, v.z⟩ (rotIter m)).y ≤ 5120 := by
  have h := allIter_spec rotZBoundOK rotStep 119 unitVec rotZBound_check m hm
  rw [rotZBoundOK, List.all_eq_true] at h
  exact of_decide_eq_true (h v hv)

theorem locX_bound (m : Nat) (hm : m ≤ 359) :
    -4096 ≤ (locIter m).x ∧ (locIter m).x ≤ 4096 := by
  have h := allIter_spec locBoundOK locStep 359 unitVec locBound_check m hm
  exact of_decide_eq_true h

/-- Claim C1: for every mesh vertex and every reachable value of the
rotation and location state vectors (the state after any number of
main-loop iterations), the depth divisor `z' = (z + MESH_DEPTH) >> 6` is
nonzero, so the per-axis perspective divisions never divide by zero. -/
theorem depth_divisor_ne_zero (n : Nat) (v : Vec3) (hv : v ∈ meshVerts) :
    depthDivisor (loopState n).rotation (loopState n).location v ≠ 0 := by
  rw [loopState_spec]
  show depthDivisor (rotIter (n % 120)) (locIter (n % 360)) v ≠ 0
  have hrz := rotZ_bound (n % 120) (by omega) v hv
  have hlx := locX_bound (n % 360) (by omega)
  unfold depthDivisor
  simp only [Vec2.add, Vec2.swap, MESH_DEPTH]
  rw [sar_eq_ediv]
  obtain ⟨hrz1, hrz2⟩ := hrz
  obtain ⟨hlx1, hlx2⟩ := hlx
  set rz := (Vec2.rotate ⟨v.x, v.z⟩ (rotIter (n % 120))).y with hrzd
  set lx := (locIter (n % 360)).x with hlxd
  have hinner : wrap16 (rz + lx) = rz + lx := wrap16_eq_self (by omega) (by omega)
  rw [hinner]
  have houter : wrap16 (rz + lx + 10752) = rz + lx + 10752 :=
    wrap16_eq_self (by omega) (by omega)
  rw [houter]
  have h64 : (2 : Int) ^ 6 = 64 := by norm_num
  rw [h64]
  omega

/-- Witness for C1 at iteration 0 and the first mesh vertex. -/
theorem depth_divisor_ne_zero_witness :
    depthDivisor (loopState 0).rotation (loopState 0).location ⟨0x800, 0x800, 0x800⟩ ≠ 0 :=
  depth_divisor_ne_zero 0 ⟨0x800, 0x800, 0x800⟩ (by decide)

theorem runUpdates_replicate_false (n : Nat) :
    ∀ c : Nat, c < 65536 →
      runUpdates c (List.replicate n false) = ((c + n) % 65536, []) := by
  induction n with
  | zero =>
    intro c hc
    simp [runUpdates, Nat.mod_eq_of_lt hc]
  | succ n ih =>
    intro c hc
    rw [List.replicate_succ, runUpdates]
    simp only [fpsUpdate, if_neg, Bool.false_eq_true, not_false_eq_true]
    rw [ih ((c + 1) % 65536) (by omega)]
    simp only [List.nil_append]
    have : ((c + 1) % 65536 + n) % 65536 = (c + (n + 1)) % 65536 := by omega
    rw [this]

theorem runUpdates_one_boundary (k c : Nat) (hc : c < 65536) :
    runUpdates c (List.replicate k false ++ [true]) = (0, [(c + k + 1) % 65536]) := by
  induction k generalizing c with
  | zero =>
    simp [runUpdates, fpsUpdate]
  | succ k ih =>
    rw [List.replicate_succ, List.cons_append, runUpdates]
    simp only [fpsUpdate, if_neg, Bool.false_eq_true, not_false_eq_true]
    rw [ih ((c + 1) % 65536) (by omega)]
    simp only [List.nil_append]
    have : ((c + 1) % 65536 + k + 1) % 65536 = (c + (k + 1) + 1) % 65536 := by omega
    rw [this]

theorem runUpdates_append (l1 l2 : List Bool) :
    ∀ c, runUpdates c (l1 ++ l2) =
      ((runUpdates (runUpdates c l1).1 l2).1,
        (runUpdates c l1).2 ++ (runUpdates (runUpdates c l1).1 l2).2) := by
  induction l1 with
  | nil =>
    intro c
    simp [runUpdates]
  | cons f fs ih =>
    intro c
    simp only [List.cons_append, runUpdates, List.append_eq]
    rw [ih (fpsUpdate c f).1]
    simp [List.append_assoc]

/-- Claim C5 (amended): starting from count 0, after `a + 1` update calls
with the flag observed raised only on the last, the value `(a + 1) mod 2^16`
is reported (equal to `a + 1` whenever `a + 1 ≤ 65535`, since the counter is
16-bit) and the count returns to 0; after `b + 1` further calls with the
flag raised only on the last, `(b + 1) mod 2^16` is reported and the count
is 0 again. -/
theorem fps_counter_reports (a b : Nat) :
    runUpdates 0 ((List.replicate a false ++ [true]) ++ (List.replicate b false ++ [true])) =
      (0, [(a + 1) % 65536, (b + 1) % 65536]) := by
  rw [runUpdates_append, runUpdates_one_boundary a 0 (by omega),
    runUpdates_one_boundary b 0 (by omega)]
  simp

/-- Counterexample to C5 as stated: with `N = 65536` update calls and the
flag observed raised only on the last one, the code reports 0 (the 16-bit
count has wrapped), not `N = 65536`. -/
theorem fps_counter_wrap_counterexample :
    runUpdates 0 (List.replicate 65535 false ++ [true]) = (0, [0]) ∧
      ([0] : List Nat) ≠ [65536] := by
  constructor
  · rw [runUpdates_one_boundary 65535 0 (by omega)]
  · decide

end UHouse
